import Mathlib

/- Verification of the image-analysis core of the skin-cancer-detection Flask
application: a shallow embedding of models/preprocessing.py, models/model.py,
models/groq_integration.py and routes/diagnosis.py, with theorems settling
behavioural claims about those functions.

Numeric conventions: Python/numpy floating-point values are modelled as exact
rationals; machine uint8 samples as naturals with explicit reduction modulo
256 where the code performs wrapping arithmetic.  External library primitives
whose numeric output the repository does not control (the floating square
root behind np.std and cv2.arcLength, cv2.findContours, cv2.convexHull, the
PIL resampling filter, json.loads, the TensorFlow forward pass) enter as
explicit oracle parameters; everything computed by the lines of the repository itself is
transcribed from the source. -/

attribute [local semireducible] Rat.add Rat.mul Rat.inv Rat.sub

set_option maxRecDepth 40000

namespace SkinApp

/-- Truncation toward zero, as C and numpy float-to-integer casts do. -/
def qTrunc (q : ℚ) : ℤ := if 0 ≤ q then ⌊q⌋ else -⌊-q⌋

/-- Conversion of a numeric value to uint8, wrapping modulo 256 exactly as
numpy astype(uint8) does on integral values. -/
def toU8 (q : ℚ) : ℕ := ((qTrunc q).emod 256).toNat

/-- Round half to even on rationals: the rounding of the Python built-in round. -/
def pyRoundInt (q : ℚ) : ℤ :=
  let f := ⌊q⌋
  let r := q - (f : ℚ)
  if r < 1/2 then f else if 1/2 < r then f + 1 else if f % 2 = 0 then f else f + 1

/-- Python round(x, 2): round to two decimal places, ties to even. -/
def pyRound2 (q : ℚ) : ℚ := (pyRoundInt (q * 100) : ℚ) / 100

/-- The mean np.mean computes (the empty case, nan in numpy, is never reached
on the inputs the claims quantify over). -/
def npMean (l : List ℚ) : ℚ := l.sum / (l.length : ℚ)

/-- The population variance underlying np.std. -/
def npVar (l : List ℚ) : ℚ := ((l.map (fun x => (x - npMean l) ^ 2)).sum) / (l.length : ℚ)

/-- np.std: the square root is the external floating primitive sqrtQ. -/
def npStd (sqrtQ : ℚ → ℚ) (l : List ℚ) : ℚ := sqrtQ (npVar l)

/-- The value of np.pi: the IEEE double closest to pi, exactly this rational. -/
def np_pi : ℚ := 884279719003555 / 281474976710656

/- ----------------------------------------------------------------------
models/preprocessing.py, lines 12 to 50: preprocess_image.
---------------------------------------------------------------------- -/

/-- A decoded PIL image: pixel size, channel count (the modes arriving here
carry 1, 3 or 4 channels) and a pixel accessor (row, column, channel) with
uint8 samples. -/
structure PILImage where
  width : ℕ
  height : ℕ
  channels : ℕ
  pix : ℕ → ℕ → ℕ → Fin 256

/-- The numpy array preprocess_image returns: its shape and its element
accessor (batch, row, column, channel). -/
structure Tensor4 where
  dims : List ℕ
  val : ℕ → ℕ → ℕ → ℕ → ℚ

/-- PIL Image.resize: the size argument is a (width, height) pair, so the
result has width size.1 and height size.2.  The interpolated uint8 samples
are produced by the PIL resampling filter, the oracle resample. -/
def pil_resize (resample : ℕ → ℕ → ℕ → Fin 256) (img : PILImage) (size : ℕ × ℕ) :
    PILImage :=
  { width := size.1, height := size.2, channels := img.channels, pix := resample }

/-- Lines 12 to 50 of models/preprocessing.py.  The opened argument is the
outcome of PIL Image.open on the path (error when it raised); a raised
exception is re-raised by the handler at lines 48 to 50 and is modelled as
Except.error.  After np.array, a 2-dimensional grayscale array is stacked
into 3 equal channels, a 4-channel array drops its alpha channel, a batch
dimension of size 1 is prepended, and every sample is divided by 255. -/
def preprocess_image (resample : ℕ → ℕ → ℕ → Fin 256)
    (opened : Except String PILImage) (target_size : ℕ × ℕ) :
    Except String Tensor4 :=
  match opened with
  | .error e => .error e
  | .ok img0 =>
    let img := pil_resize resample img0 target_size
    let c := img.channels
    let cOut : ℕ := if c = 1 then 3 else if c = 4 then 3 else c
    .ok { dims := [1, img.height, img.width, cOut],
          val := fun _ y x k =>
            ((if c = 1 then (img.pix y x 0 : ℕ) else (img.pix y x k : ℕ) : ℕ) : ℚ) / 255 }

/- ----------------------------------------------------------------------
models/preprocessing.py, lines 101 to 214: extract_features.
---------------------------------------------------------------------- -/

/-- The dtype of the array handed to extract_features (the app passes the
float tensor from preprocess_image; uint8 arrays skip the scaling cast). -/
inductive Dtype where
  | uint8 : Dtype
  | float : Dtype
deriving DecidableEq

/-- A numpy array of 2, 3 or 4 dimensions as nested row-major lists.  Entries
are rationals; a uint8 array stores its integer sample values. -/
inductive NpArray where
  | a2 (rows : List (List ℚ)) : NpArray
  | a3 (rows : List (List (List ℚ))) : NpArray
  | a4 (items : List (List (List (List ℚ)))) : NpArray

/-- The external OpenCV/numpy primitives extract_features calls, passed as
oracles: the floating square root (behind np.std and cv2.arcLength),
cv2.findContours applied to a binary image (RETR_EXTERNAL,
CHAIN_APPROX_SIMPLE), and cv2.convexHull. -/
structure CVOps where
  sqrtQ : ℚ → ℚ
  findContours : List (List ℕ) → List (List (ℤ × ℤ))
  convexHull : List (ℤ × ℤ) → List (ℤ × ℤ)

/-- The color entry of the returned feature dictionary. -/
structure ColorFeatures where
  hue_avg : ℚ
  saturation_avg : ℚ
  value_avg : ℚ
  hue_std : ℚ
  saturation_std : ℚ
  value_std : ℚ
deriving DecidableEq

/-- The texture entry of the returned feature dictionary. -/
structure TextureFeatures where
  contrast : ℚ
  energy : ℚ
deriving DecidableEq

/-- The shape entry of the returned feature dictionary. -/
structure ShapeFeatures where
  area : ℚ
  perimeter : ℚ
  circularity : ℚ
  aspect_ratio : ℚ
  solidity : ℚ
deriving DecidableEq

/-- The dictionary extract_features returns: none models an empty mapping, so
the except branch at lines 207 to 214 is three none fields plus a message. -/
structure Features where
  color : Option ColorFeatures
  texture : Option TextureFeatures
  shape : Option ShapeFeatures
  error : Option String
deriving DecidableEq

/-- The value returned from the except handler at lines 209 to 214. -/
def errFeatures (m : String) : Features :=
  { color := none, texture := none, shape := none, error := some m }

/-- OpenCV 8-bit BGR-to-gray: the fixed-point form of
Y = 0.299 R + 0.587 G + 0.114 B (descale by 2 ^ 14 with rounding). -/
def cvGray (b g r : ℕ) : ℕ := (1868 * b + 9617 * g + 4899 * r + 8192) / 16384

/-- OpenCV 8-bit BGR-to-HSV (value, saturation, hue halved into 0..179).
OpenCV realises the divisions through fixed-point tables; this uses the
corresponding exact formula with rounding.  No claim inspects these values. -/
def cvHSV (b g r : ℕ) : ℕ × ℕ × ℕ :=
  let v : ℕ := max b (max g r)
  let vmin : ℕ := min b (min g r)
  let d : ℕ := v - vmin
  let s : ℕ := if v = 0 then 0 else (round ((255 * d : ℚ) / (v : ℚ))).toNat
  let h0 : ℤ :=
    if d = 0 then 0
    else if v = r then round ((30 : ℚ) * ((g : ℚ) - (b : ℚ)) / (d : ℚ))
    else if v = g then 60 + round ((30 : ℚ) * ((b : ℚ) - (r : ℚ)) / (d : ℚ))
    else 120 + round ((30 : ℚ) * ((r : ℚ) - (g : ℚ)) / (d : ℚ))
  let h1 : ℤ := if h0 < 0 then h0 + 180 else h0
  (h1.toNat, s, v)

/-- OpenCV getThreshVal_Otsu_8u: scan of the 256 candidate thresholds
maximizing between-class variance, transcribed from the OpenCV source with
FLT_EPSILON as the exact rational 2 ^ -23. -/
def otsuThreshold (gray : List ℕ) : ℕ :=
  let hist : ℕ → ℚ := fun v => ((gray.filter (fun g => g = v)).length : ℚ)
  let scale : ℚ := 1 / (gray.length : ℚ)
  let mu : ℚ := scale * ((List.range 256).foldl (fun (acc : ℚ) (i : ℕ) => acc + (i : ℚ) * hist i) 0)
  let eps : ℚ := 1 / 2 ^ 23
  let res := (List.range 256).foldl (fun (st : ℚ × ℚ × ℚ × ℕ) (i : ℕ) =>
    let p := hist i * scale
    let mu1a := st.2.1 * st.1
    let q1a := st.1 + p
    let q2 := 1 - q1a
    if min q1a q2 < eps ∨ 1 - eps < max q1a q2 then (q1a, mu1a, st.2.2.1, st.2.2.2)
    else
      let mu1b := (mu1a + (i : ℚ) * p) / q1a
      let mu2 := (mu - q1a * mu1b) / q2
      let sigma := q1a * q2 * (mu1b - mu2) ^ 2
      if st.2.2.1 < sigma then (q1a, mu1b, sigma, i)
      else (q1a, mu1b, st.2.2.1, st.2.2.2))
    ((0 : ℚ), (0 : ℚ), (0 : ℚ), (0 : ℕ))
  res.2.2.2

/-- cv2.contourArea: absolute value of the shoelace formula over the closed
polygon of contour vertices. -/
def contourArea (c : List (ℤ × ℤ)) : ℚ :=
  match c with
  | [] => 0
  | p0 :: _ =>
    let closed := c ++ [p0]
    (((closed.zip closed.tail).foldl
        (fun (acc : ℤ) (pq : (ℤ × ℤ) × (ℤ × ℤ)) => acc + (pq.1.1 * pq.2.2 - pq.2.1 * pq.1.2)) 0).natAbs : ℚ) / 2

/-- cv2.arcLength on a closed contour: the sum of Euclidean edge lengths,
with the floating square root as the oracle sqrtQ. -/
def arcLength (sqrtQ : ℚ → ℚ) (c : List (ℤ × ℤ)) : ℚ :=
  match c with
  | [] => 0
  | p0 :: _ =>
    let closed := c ++ [p0]
    (closed.zip closed.tail).foldl
      (fun (acc : ℚ) (pq : (ℤ × ℤ) × (ℤ × ℤ)) =>
        acc + sqrtQ ((((pq.2.1 - pq.1.1) ^ 2 + (pq.2.2 - pq.1.2) ^ 2 : ℤ) : ℚ))) 0

/-- cv2.boundingRect as (x, y, w, h): the upright bounding box, width and
height being the coordinate ranges plus one; zeros for an empty point list. -/
def boundingRect (c : List (ℤ × ℤ)) : ℤ × ℤ × ℤ × ℤ :=
  match c with
  | [] => (0, 0, 0, 0)
  | p0 :: ps =>
    let xmin := ps.foldl (fun a p => min a p.1) p0.1
    let ymin := ps.foldl (fun a p => min a p.2) p0.2
    let xmax := ps.foldl (fun a p => max a p.1) p0.1
    let ymax := ps.foldl (fun a p => max a p.2) p0.2
    (xmin, ymin, xmax - xmin + 1, ymax - ymin + 1)

/-- Python max(contours, key=cv2.contourArea): the first contour of maximal
area (a later tie does not replace the current maximum). -/
def maxByArea (c0 : List (ℤ × ℤ)) (cs : List (List (ℤ × ℤ))) : List (ℤ × ℤ) :=
  cs.foldl (fun best x => if contourArea best < contourArea x then x else best) c0

/-- Lines 156 to 179: shape features from the found contours.  Every ratio is
guarded exactly as in the source; the else branch is the no-contour case. -/
def shapeFromContours (cv : CVOps) (contours : List (List (ℤ × ℤ))) : ShapeFeatures :=
  match contours with
  | [] => ⟨0, 0, 0, 0, 0⟩
  | c0 :: rest =>
    let largest := maxByArea c0 rest
    let area := contourArea largest
    let perimeter := arcLength cv.sqrtQ largest
    let circularity := if 0 < perimeter then 4 * np_pi * area / perimeter ^ 2 else 0
    let r := boundingRect largest
    let aspect := if 0 < r.2.2.2 then (r.2.2.1 : ℚ) / (r.2.2.2 : ℚ) else 0
    let hull_area := contourArea (cv.convexHull largest)
    let solidity := if 0 < hull_area then area / hull_area else 0
    ⟨area, perimeter, circularity, aspect, solidity⟩

/-- The channel count of a 3-dimensional array, numpy-style (from the first
pixel of the first row). -/
def chanCount (f : List (List (List ℚ))) : ℕ := ((f.headD []).headD []).length

/-- Lines 118 to 120: a float frame is scaled by 255 and cast to uint8
(wrapping); a uint8 frame keeps its integer samples. -/
def toU8Frame (dtype : Dtype) (f : List (List (List ℚ))) : List (List (List ℕ)) :=
  f.map (fun row => row.map (fun p => p.map (fun q =>
    if dtype = Dtype.float then toU8 (q * 255) else toU8 q)))

/-- Lines 122 to 126: a 3-channel frame is reordered RGB to BGR (channel
reversal); any other channel count is passed through unchanged. -/
def bgrFrame (dtype : Dtype) (f : List (List (List ℚ))) : List (List (List ℕ)) :=
  let u := toU8Frame dtype f
  if chanCount f = 3 then u.map (fun row => row.map (fun p => p.reverse)) else u

/-- Line 129: the grayscale image cv2.cvtColor(img_bgr, COLOR_BGR2GRAY)
computes (on 4-channel input OpenCV reads the first three channels). -/
def grayFrame (dtype : Dtype) (f : List (List (List ℚ))) : List (List ℕ) :=
  (bgrFrame dtype f).map (fun row => row.map (fun p =>
    cvGray (p.getD 0 0) (p.getD 1 0) (p.getD 2 0)))

/-- Line 132: the HSV image (same channel reading discipline as the gray
conversion). -/
def hsvFrame (dtype : Dtype) (f : List (List (List ℚ))) : List (List (ℕ × ℕ × ℕ)) :=
  (bgrFrame dtype f).map (fun row => row.map (fun p =>
    cvHSV (p.getD 0 0) (p.getD 1 0) (p.getD 2 0)))

/-- Lines 131 to 140: channel means and standard deviations in HSV space. -/
def colorFromHSV (sqrtQ : ℚ → ℚ) (hsv : List (List (ℕ × ℕ × ℕ))) : ColorFeatures :=
  let hs := hsv.flatten.map (fun p => (p.1 : ℚ))
  let ss := hsv.flatten.map (fun p => (p.2.1 : ℚ))
  let vs := hsv.flatten.map (fun p => (p.2.2 : ℚ))
  ⟨npMean hs, npMean ss, npMean vs, npStd sqrtQ hs, npStd sqrtQ ss, npStd sqrtQ vs⟩

/-- Lines 145 to 146: contrast is np.std of the grayscale samples; for the
energy, gray ** 2 squares the uint8 samples elementwise, wrapping modulo 256,
then np.sum accumulates exactly (numpy widens the accumulator) and the total
is divided by the pixel count. -/
def textureOf (sqrtQ : ℚ → ℚ) (g : List (List ℕ)) : TextureFeatures :=
  ⟨npStd sqrtQ (g.flatten.map (fun v => (v : ℚ))),
    (((g.flatten.map (fun v => v * v % 256)).sum : ℕ) : ℚ)
      / ((g.length * (g.headD []).length : ℕ) : ℚ)⟩

/-- Lines 149 to 153: Otsu binarization with inverse polarity
(dst = 0 where src exceeds the threshold, 255 elsewhere) on the grayscale
image, the input handed to cv2.findContours. -/
def threshFrame (dtype : Dtype) (f : List (List (List ℚ))) : List (List ℕ) :=
  let g := grayFrame dtype f
  let t := otsuThreshold g.flatten
  g.map (fun row => row.map (fun v => if t < v then 0 else 255))

/-- The body of extract_features on the selected frame.  An empty frame makes
the first cvtColor raise, a channel count outside 3 and 4 makes the gray
conversion raise; both land in the except branch. -/
def extractFrame (cv : CVOps) (dtype : Dtype) (f : List (List (List ℚ))) : Features :=
  if f.length = 0 ∨ (f.headD []).length = 0 then
    errFeatures ("OpenCV error: !_src.empty() in function cvtColor")
  else if chanCount f = 3 ∨ chanCount f = 4 then
    { color := some (colorFromHSV cv.sqrtQ (hsvFrame dtype f)),
      texture := some (textureOf cv.sqrtQ (grayFrame dtype f)),
      shape := some (shapeFromContours cv (cv.findContours (threshFrame dtype f))),
      error := none }
  else errFeatures ("OpenCV error: invalid number of channels in cvtColor")

/-- Lines 101 to 214 of models/preprocessing.py.  A 4-dimensional array is
reduced to its first element (an empty batch makes that indexing raise); a
2-dimensional array fails at the img.shape[2] access of line 123; both
exceptions are caught by the blanket handler and become errFeatures. -/
def extract_features (cv : CVOps) (dtype : Dtype) (a : NpArray) : Features :=
  match a with
  | .a2 _ => errFeatures ("tuple index out of range")
  | .a4 [] => errFeatures ("index 0 is out of bounds for axis 0 with size 0")
  | .a4 (f :: _) => extractFrame cv dtype f
  | .a3 f => extractFrame cv dtype f

/-- The texture energy exactly as the specification words it, for refinement
comparison with the code: the sum of the squared grayscale intensities (no
modular reduction) divided by the pixel count. -/
def specTextureEnergy (g : List (List ℕ)) : ℚ :=
  (((g.flatten.map (fun v => v * v)).sum : ℕ) : ℚ)
    / ((g.length * (g.headD []).length : ℕ) : ℚ)

/- ----------------------------------------------------------------------
models/groq_integration.py: get_groq_analysis.
---------------------------------------------------------------------- -/

/-- What get_groq_analysis hands back to its caller: Python None, a parsed
analysis value, or an error-marker dictionary with its message. -/
inductive GroqOut (α : Type) where
  | nil : GroqOut α
  | ana (a : α) : GroqOut α
  | err (m : String) : GroqOut α
deriving DecidableEq

/-- The observable outcome of the requests.post call: a raised transport
exception, or a response with its status code and (for the 200 path) the
extracted message content; Except.error stands for a response whose JSON
body or field structure made the extraction at lines 80 to 81 raise. -/
inductive HttpResult where
  | exn (m : String) : HttpResult
  | resp (status : ℕ) (content : Except String (List Char)) : HttpResult

/-- Python str.find: index of the first occurrence, -1 when absent. -/
def pyFind (l : List Char) (c : Char) : ℤ :=
  match l.indexOf? c with
  | some i => (i : ℤ)
  | none => -1

/-- Python str.rfind: index of the last occurrence, -1 when absent. -/
def pyRFind (l : List Char) (c : Char) : ℤ :=
  match l.reverse.indexOf? c with
  | some i => (l.length : ℤ) - 1 - (i : ℤ)
  | none => -1

/-- Lines 12 to 106 of models/groq_integration.py.  loads is the external
json.loads, none when it raises; hasKey is whether GROQ_API_KEY is
configured.  Transcribed control flow: without a key the function returns
None; a transport exception or a body-extraction exception reaches the outer
handler and returns the error marker; a non-200 status returns the error
marker; on a 200 reply whose content fails to parse, the substring between
the first opening brace (character 123) and the last closing brace
(character 125) is parsed, a parse failure there returning the error marker
— but when no such substring exists control falls out of both try blocks
and the function returns None. -/
def get_groq_analysis {α : Type} (loads : List Char → Option α) (hasKey : Bool)
    (r : HttpResult) : GroqOut α :=
  if !hasKey then .nil
  else
    match r with
    | .exn m => .err m
    | .resp status content =>
      if status = 200 then
        match content with
        | .error m => .err m
        | .ok cs =>
          match loads cs with
          | some a => .ana a
          | none =>
            let s := pyFind cs (Char.ofNat 123)
            let e := pyRFind cs (Char.ofNat 125) + 1
            if 0 ≤ s ∧ s < e then
              match loads ((cs.drop s.toNat).take (e - s).toNat) with
              | some a => .ana a
              | none => .err ("Failed to parse JSON from Groq response")
            else .nil
      else .err ("API request failed with status code " ++ toString status)

/- ----------------------------------------------------------------------
models/model.py: load_model, create_dummy_model, predict_image.
---------------------------------------------------------------------- -/

/-- The fixed ordered class list at lines 109 to 119. -/
def class_labels : List String :=
  ["actinic keratosis", "basal cell carcinoma", "dermatofibroma", "melanoma",
   "nevus", "pigmented benign keratosis", "seborrheic keratosis",
   "squamous cell carcinoma", "vascular lesion"]

/-- The dictionary predict_image returns.  The success path at lines 136 to
142 fills additional_analysis and no error key; the except path at lines 148
to 154 fills error and leaves no analysis. -/
structure PredictResult where
  prediction : String
  confidence : ℚ
  class_index : ℤ
  all_probabilities : List (String × ℚ)
  additional_analysis : Option (GroqOut String)
  error : Option String
deriving DecidableEq

/-- The fallback dictionary of lines 148 to 154. -/
def fallbackResult (m : String) : PredictResult :=
  { prediction := "unknown", confidence := 0, class_index := -1,
    all_probabilities := [], additional_analysis := none, error := some m }

/-- np.argmax: the index of the first maximal element. -/
def np_argmax : List ℚ → ℕ
  | [] => 0
  | [_] => 0
  | x :: y :: t =>
    if x < (y :: t).getD (np_argmax (y :: t)) 0 then np_argmax (y :: t) + 1 else 0

/-- Lines 95 to 154 of models/model.py.  The TensorFlow forward pass is
external: out is its softmax output row for the single batch element, none
when model loading or inference raised.  ana is the value the enrichment
step left in additional_analysis (None when no key is configured or the
Groq call raised, per lines 124 to 133).  An exception anywhere inside the
try block — argmax of an empty row, a label index beyond the nine labels,
a distribution row shorter than the label list — lands in the fallback. -/
def predict_image (out : Option (List ℚ)) (ana : Option (GroqOut String)) :
    PredictResult :=
  match out with
  | none => fallbackResult ("inference raised")
  | some probs =>
    if probs.isEmpty then fallbackResult ("attempt to get argmax of an empty sequence")
    else
      let idx := np_argmax probs
      if class_labels.length ≤ idx then fallbackResult ("list index out of range")
      else if probs.length < class_labels.length then fallbackResult ("index out of range")
      else
        { prediction := class_labels.getD idx (""),
          confidence := pyRound2 (probs.getD idx 0 * 100),
          class_index := (idx : ℤ),
          all_probabilities :=
            (List.range class_labels.length).map
              (fun i => (class_labels.getD i (""), probs.getD i 0)),
          additional_analysis := ana,
          error := none }

/-- Which loader produced the process-wide model. -/
inductive ModelSource where
  | h5 : ModelSource
  | savedModel : ModelSource
  | dummy : ModelSource
deriving DecidableEq

/-- What the environment lets the lazy loader of lines 16 to 71 observe:
whether the .h5 load succeeds, whether the SavedModel directory exists, and
whether loading it succeeds. -/
structure LoadEnv where
  h5Ok : Bool
  savedDirExists : Bool
  savedOk : Bool

/-- Lines 16 to 71 of models/model.py: ordered fallback across the two
on-disk formats, ending at the dummy model of create_dummy_model. -/
def load_model (env : LoadEnv) : ModelSource :=
  if env.h5Ok then .h5
  else if env.savedDirExists then (if env.savedOk then .savedModel else .dummy)
  else .dummy

/-- predict_image with the source of the loaded model made explicit.  The
body of lines 95 to 154 never consults which loader succeeded: the result
is a function of the forward-pass output and the enrichment value alone. -/
def predictWithSource (src : ModelSource) (out : Option (List ℚ))
    (ana : Option (GroqOut String)) : PredictResult :=
  let _ := src
  predict_image out ana

/- ----------------------------------------------------------------------
routes/diagnosis.py: the upload handler.
---------------------------------------------------------------------- -/

/-- Modelled from the spec: utils/helpers.py is not under src/, so
allowed_file is taken from the specification (section 6: extensions png,
jpg, jpeg — the set config.py also declares as ALLOWED_EXTENSIONS), in the
flask-standard form requiring a dot and a case-insensitive extension match
on the part after the last dot. -/
def allowed_file (filename : String) : Bool :=
  let cs := filename.toList
  cs.contains (Char.ofNat 46) &&
    (["png", "jpg", "jpeg"].map String.toList).contains
      ((cs.reverse.takeWhile (fun c => c != Char.ofNat 46)).reverse.map Char.toLower)

/-- The part of the diagnosis session record the claims observe. -/
structure DiagnosisSession where
  original_filename : String
  prediction : String
  confidence : ℚ
deriving DecidableEq

/-- The reply of the handler: a flash message with a redirect back to the upload
page, or a redirect to the results page with the stored session record. -/
inductive UploadResponse where
  | redirectIndex (flashMsg : String) : UploadResponse
  | redirectResults (stored : DiagnosisSession) : UploadResponse
deriving DecidableEq

/-- Lines 41 to 91 of routes/diagnosis.py: the upload handler.  hasFilePart
and filename describe the posted form; decoded is the outcome of opening the
saved file, feeding preprocess_image; out and ana feed predict_image.  The
generated unique on-disk name and the timestamp are elided from the session
record as irrelevant to the claims. -/
def upload (resample : ℕ → ℕ → ℕ → Fin 256) (hasFilePart : Bool)
    (filename : String) (decoded : Except String PILImage)
    (out : Option (List ℚ)) (ana : Option (GroqOut String)) : UploadResponse :=
  if !hasFilePart then .redirectIndex ("No file part")
  else if filename = "" then .redirectIndex ("No selected file")
  else if allowed_file filename then
    match preprocess_image resample decoded (180, 180) with
    | .error _ =>
      .redirectIndex ("An error occurred during processing. Please try again.")
    | .ok _ =>
      let pr := predict_image out ana
      .redirectResults
        { original_filename := filename, prediction := pr.prediction,
          confidence := pr.confidence }
  else
    .redirectIndex ("File type not allowed. Please upload a JPG, JPEG, or PNG image.")

/- ----------------------------------------------------------------------
Helper lemmas shared by the claim theorems.
---------------------------------------------------------------------- -/

/-- pyRoundInt returns the floor, or the floor plus one and then the
fractional part was at least one half. -/
theorem pyRoundInt_cases (q : ℚ) :
    pyRoundInt q = ⌊q⌋ ∨ (pyRoundInt q = ⌊q⌋ + 1 ∧ 1/2 ≤ q - (⌊q⌋ : ℚ)) := by
  simp only [pyRoundInt]
  split_ifs with h1 h2 h3
  · exact Or.inl rfl
  · exact Or.inr ⟨rfl, le_of_not_lt h1⟩
  · exact Or.inl rfl
  · exact Or.inr ⟨rfl, le_of_not_lt h1⟩

/-- pyRoundInt stays between integer bounds enclosing its argument. -/
theorem pyRoundInt_bounds (q : ℚ) (lo hi : ℤ) (h0 : (lo : ℚ) ≤ q)
    (h1 : q ≤ (hi : ℚ)) : lo ≤ pyRoundInt q ∧ pyRoundInt q ≤ hi := by
  have hfl : lo ≤ ⌊q⌋ := Int.le_floor.mpr h0
  have hfu : ⌊q⌋ ≤ hi := by
    have := Int.floor_le_floor h1
    simpa using this
  have hq := Int.floor_le q
  rcases pyRoundInt_cases q with h | ⟨h, hr⟩
  · rw [h]; exact ⟨hfl, hfu⟩
  · rw [h]
    refine ⟨by omega, ?_⟩
    have hlt : (⌊q⌋ : ℚ) < (hi : ℚ) := by linarith
    have h2 : ⌊q⌋ < hi := by exact_mod_cast hlt
    omega

/-- The two-decimal rounding of a value in [0, 100] stays in [0, 100]. -/
theorem pyRound2_bounds (q : ℚ) (h0 : 0 ≤ q) (h1 : q ≤ 100) :
    0 ≤ pyRound2 q ∧ pyRound2 q ≤ 100 := by
  have hb := pyRoundInt_bounds (q * 100) 0 10000 (by push_cast; linarith)
    (by push_cast; linarith)
  have hc0 : (0 : ℚ) ≤ (pyRoundInt (q * 100) : ℚ) := by exact_mod_cast hb.1
  have hc1 : (pyRoundInt (q * 100) : ℚ) ≤ 10000 := by exact_mod_cast hb.2
  unfold pyRound2
  constructor
  · exact div_nonneg hc0 (by norm_num)
  · rw [div_le_iff₀ (by norm_num : (0 : ℚ) < 100)]
    linarith

/-- np.argmax stays inside a nonempty list. -/
theorem np_argmax_lt_length : ∀ (l : List ℚ), l ≠ [] → np_argmax l < l.length
  | [], h => absurd rfl h
  | [_], _ => by simp [np_argmax]
  | x :: y :: t, _ => by
    have ih := np_argmax_lt_length (y :: t) (by simp)
    by_cases h : x < (y :: t).getD (np_argmax (y :: t)) 0
    · simp only [np_argmax, if_pos h, List.length_cons]
      simp only [List.length_cons] at ih
      omega
    · simp only [np_argmax, if_neg h, List.length_cons]
      omega

/-- The element at the np.argmax position dominates every member. -/
theorem le_getD_np_argmax : ∀ (l : List ℚ) (z : ℚ), z ∈ l →
    z ≤ l.getD (np_argmax l) 0
  | [], _, hz => absurd hz (by simp)
  | [x], z, hz => by
    simp only [List.mem_singleton] at hz
    simp [np_argmax, hz, List.getD]
  | x :: y :: t, z, hz => by
    have ih : ∀ w, w ∈ y :: t → w ≤ (y :: t).getD (np_argmax (y :: t)) 0 :=
      fun w hw => le_getD_np_argmax (y :: t) w hw
    by_cases h : x < (y :: t).getD (np_argmax (y :: t)) 0
    · simp only [np_argmax, if_pos h, List.getD_cons_succ]
      rcases List.mem_cons.mp hz with rfl | hz2
      · exact le_of_lt h
      · exact ih z hz2
    · simp only [np_argmax, if_neg h, List.getD_cons_zero]
      rcases List.mem_cons.mp hz with rfl | hz2
      · exact le_refl z
      · exact le_trans (ih z hz2) (le_of_not_lt h)

/-- An in-range getD with default 0 is a member. -/
theorem getD_mem_of_lt {l : List ℚ} {n : ℕ} (h : n < l.length) :
    l.getD n 0 ∈ l := by
  rw [List.getD_eq_getElem l 0 h]
  exact List.getElem_mem h

/-- There are nine class labels. -/
theorem class_labels_length : class_labels.length = 9 := rfl

/-- None of the nine class labels reads unknown. -/
theorem class_labels_getD_ne_unknown :
    ∀ i, i < 9 → class_labels.getD i ("") ≠ "unknown" := by decide

/-- Looking the k-th label up in the probability association list built at
line 140 yields the k-th probability (the labels are pairwise distinct). -/
theorem lookup_label_probs (f : ℕ → ℚ) (k : ℕ) (hk : k < 9) :
    ((List.range 9).map (fun i => (class_labels.getD i (""), f i))).lookup
        (class_labels.getD k ("")) = some (f k) := by
  interval_cases k <;> rfl

/-- The success path of predict_image in closed form: with a nine-entry
softmax row the argmax is in range, no exception occurs, and the record of
lines 136 to 142 is returned. -/
theorem predict_image_success (probs : List ℚ) (ana : Option (GroqOut String))
    (h9 : probs.length = 9) :
    predict_image (some probs) ana =
      { prediction := class_labels.getD (np_argmax probs) (""),
        confidence := pyRound2 (probs.getD (np_argmax probs) 0 * 100),
        class_index := (np_argmax probs : ℤ),
        all_probabilities :=
          (List.range 9).map (fun i => (class_labels.getD i (""), probs.getD i 0)),
        additional_analysis := ana,
        error := none } := by
  have hne : probs ≠ [] := by
    intro h
    rw [h] at h9
    simp at h9
  have hlt : np_argmax probs < 9 := by
    have := np_argmax_lt_length probs hne
    omega
  have hempty : probs.isEmpty = false := by
    simpa [List.isEmpty_iff] using hne
  simp only [predict_image, hempty, Bool.false_eq_true, if_false]
  rw [if_neg (by simp only [class_labels_length]; omega),
    if_neg (by simp only [class_labels_length]; omega)]
  rfl

/- ----------------------------------------------------------------------
Claim theorems.
---------------------------------------------------------------------- -/

/-- C1 (code bug): preprocess_image hands target_size to PIL Image.resize,
which reads its size argument as (width, height), while the docstring of
the function itself and the claim read target_size as (height, width).  For a valid
3-channel image and target_size (2, 3) the returned array therefore has
shape (1, 3, 2, 3) and not the claimed (1, 2, 3, 3).  The other parts of
the claim (three output channels, leading batch dimension 1, each sample
divided by 255 into [0, 1]) do hold on this input. -/
theorem c1_target_size_transposed :
    (Except.map Tensor4.dims
        (preprocess_image (fun _ _ _ => 0) (.ok ⟨5, 7, 3, fun _ _ _ => 0⟩) (2, 3))
      = .ok [1, 3, 2, 3]) ∧ ([1, 3, 2, 3] : List ℕ) ≠ [1, 2, 3, 3] :=
  ⟨rfl, by decide⟩

/-- C2 (confirmed): whenever the forward-pass probabilities lie in [0, 1]
(the softmax range), predict_image returns a confidence in [0, 100] and a
class_index in the set -1, 0,..,8, and class_index equals -1 exactly when
the predicted label is unknown — on the success path as well as on every
exception path. -/
theorem c2_predict_ranges (out : Option (List ℚ)) (ana : Option (GroqOut String))
    (hp : ∀ probs, out = some probs → ∀ p ∈ probs, 0 ≤ p ∧ p ≤ 1) :
    0 ≤ (predict_image out ana).confidence ∧
    (predict_image out ana).confidence ≤ 100 ∧
    ((predict_image out ana).class_index = -1 ∨
      (0 ≤ (predict_image out ana).class_index ∧
        (predict_image out ana).class_index ≤ 8)) ∧
    ((predict_image out ana).class_index = -1 ↔
      (predict_image out ana).prediction = "unknown") := by
  match out with
  | none => simp [predict_image, fallbackResult]
  | some probs =>
    by_cases he : probs.isEmpty
    · simp [predict_image, he, fallbackResult]
    · have hne : probs ≠ [] := by simpa [List.isEmpty_iff] using he
      have hb : probs.isEmpty = false := by simpa [List.isEmpty_iff] using hne
      by_cases h9 : class_labels.length ≤ np_argmax probs
      · simp [predict_image, hb, h9, fallbackResult]
      · by_cases hlen : probs.length < class_labels.length
        · simp [predict_image, hb, h9, hlen, fallbackResult]
        · have hlt9 : np_argmax probs < 9 := by
            simp only [class_labels_length] at h9
            omega
          have hmem : probs.getD (np_argmax probs) 0 ∈ probs :=
            getD_mem_of_lt (np_argmax_lt_length probs hne)
          obtain ⟨hp0, hp1⟩ := hp probs rfl _ hmem
          have hr := pyRound2_bounds (probs.getD (np_argmax probs) 0 * 100)
            (by linarith) (by linarith)
          simp only [predict_image, hb, Bool.false_eq_true, if_false,
            if_neg h9, if_neg hlen]
          refine ⟨hr.1, hr.2, Or.inr ⟨Int.natCast_nonneg _, ?_⟩, ?_⟩
          · exact_mod_cast Nat.le_of_lt_succ hlt9
          · constructor
            · intro hcontra
              have h0 : (0 : ℤ) ≤ (np_argmax probs : ℤ) := Int.natCast_nonneg _
              omega
            · intro hcontra
              exact absurd hcontra (class_labels_getD_ne_unknown _ hlt9)

/-- C2 witness: the theorem applied to a concrete nine-entry softmax row. -/
theorem c2_witness :
    0 ≤ (predict_image (some [1/10, 1/10, 3/10, 1/10, 1/10, 1/10, 1/10, 0, 1/10])
        none).confidence ∧
    (predict_image (some [1/10, 1/10, 3/10, 1/10, 1/10, 1/10, 1/10, 0, 1/10])
        none).confidence ≤ 100 ∧
    ((predict_image (some [1/10, 1/10, 3/10, 1/10, 1/10, 1/10, 1/10, 0, 1/10])
          none).class_index = -1 ∨
      (0 ≤ (predict_image (some [1/10, 1/10, 3/10, 1/10, 1/10, 1/10, 1/10, 0, 1/10])
            none).class_index ∧
        (predict_image (some [1/10, 1/10, 3/10, 1/10, 1/10, 1/10, 1/10, 0, 1/10])
            none).class_index ≤ 8)) ∧
    ((predict_image (some [1/10, 1/10, 3/10, 1/10, 1/10, 1/10, 1/10, 0, 1/10])
          none).class_index = -1 ↔
      (predict_image (some [1/10, 1/10, 3/10, 1/10, 1/10, 1/10, 1/10, 0, 1/10])
          none).prediction = "unknown") :=
  c2_predict_ranges (some [1/10, 1/10, 3/10, 1/10, 1/10, 1/10, 1/10, 0, 1/10]) none
    (by
      intro probs h
      injection h with h2
      subst h2
      decide)

/-- C10 (confirmed): on the nine-entry success path predict_image attaches no
error, the probability its distribution assigns to the predicted label is the
argmax probability, the confidence equals that probability scaled by 100 and
rounded to two decimal places, and it dominates all nine distribution
entries. -/
theorem c10_confidence_is_rounded_max (probs : List ℚ)
    (ana : Option (GroqOut String)) (h9 : probs.length = 9) :
    (predict_image (some probs) ana).error = none ∧
    ((predict_image (some probs) ana).all_probabilities.lookup
        ((predict_image (some probs) ana).prediction)
      = some (probs.getD (np_argmax probs) 0)) ∧
    (predict_image (some probs) ana).confidence
      = pyRound2 (probs.getD (np_argmax probs) 0 * 100) ∧
    (∀ pr ∈ (predict_image (some probs) ana).all_probabilities,
      pr.2 ≤ probs.getD (np_argmax probs) 0) := by
  have hne : probs ≠ [] := by
    intro h
    rw [h] at h9
    simp at h9
  have hlt : np_argmax probs < 9 := by
    have := np_argmax_lt_length probs hne
    omega
  rw [predict_image_success probs ana h9]
  refine ⟨rfl, ?_, rfl, ?_⟩
  · exact lookup_label_probs (fun i => probs.getD i 0) (np_argmax probs) hlt
  · intro pr hpr
    rcases List.mem_map.mp hpr with ⟨i, hi, rfl⟩
    have hi9 : i < 9 := List.mem_range.mp hi
    exact le_getD_np_argmax probs _ (getD_mem_of_lt (by omega))

/-- C10 witness: the theorem applied to a concrete nine-entry softmax row. -/
theorem c10_witness :
    (predict_image (some [1/20, 1/20, 1/20, 11/20, 1/20, 1/20, 1/20, 1/20, 3/20])
        none).error = none ∧
    ((predict_image (some [1/20, 1/20, 1/20, 11/20, 1/20, 1/20, 1/20, 1/20, 3/20])
          none).all_probabilities.lookup
        ((predict_image (some [1/20, 1/20, 1/20, 11/20, 1/20, 1/20, 1/20, 1/20, 3/20])
            none).prediction)
      = some ([1/20, 1/20, 1/20, 11/20, 1/20, 1/20, 1/20, 1/20, 3/20].getD
          (np_argmax [1/20, 1/20, 1/20, 11/20, 1/20, 1/20, 1/20, 1/20, 3/20]) 0)) ∧
    (predict_image (some [1/20, 1/20, 1/20, 11/20, 1/20, 1/20, 1/20, 1/20, 3/20])
        none).confidence
      = pyRound2 ([1/20, 1/20, 1/20, 11/20, 1/20, 1/20, 1/20, 1/20, 3/20].getD
          (np_argmax [1/20, 1/20, 1/20, 11/20, 1/20, 1/20, 1/20, 1/20, 3/20]) 0 * 100) ∧
    (∀ pr ∈ (predict_image (some [1/20, 1/20, 1/20, 11/20, 1/20, 1/20, 1/20, 1/20, 3/20])
        none).all_probabilities,
      pr.2 ≤ [1/20, 1/20, 1/20, 11/20, 1/20, 1/20, 1/20, 1/20, 3/20].getD
          (np_argmax [1/20, 1/20, 1/20, 11/20, 1/20, 1/20, 1/20, 1/20, 3/20]) 0) :=
  c10_confidence_is_rounded_max [1/20, 1/20, 1/20, 11/20, 1/20, 1/20, 1/20, 1/20, 3/20]
    none (by decide)

/-- C9 (confirmed): a decode failure propagates out of preprocess_image as
the raised error (no recovery, no degraded value), and the upload handler
catches it, flashes the generic processing-failure message and redirects
back to the upload page — the failed-diagnosis outcome.  allowed_file is
modelled from the spec because utils/helpers.py is not under src/. -/
theorem c9_decode_failure_propagates (resample : ℕ → ℕ → ℕ → Fin 256)
    (filename e : String) (out : Option (List ℚ)) (ana : Option (GroqOut String))
    (hn : filename ≠ "") (ha : allowed_file filename = true) :
    preprocess_image resample (.error e) (180, 180) = .error e ∧
    upload resample true filename (.error e) out ana
      = .redirectIndex ("An error occurred during processing. Please try again.") := by
  refine ⟨rfl, ?_⟩
  simp [upload, hn, ha, preprocess_image]

/-- C9 witness: the theorem applied to a concrete failing upload. -/
theorem c9_witness :
    preprocess_image (fun _ _ _ => 0) (.error ("cannot identify image file"))
        (180, 180) = .error ("cannot identify image file") ∧
    upload (fun _ _ _ => 0) true ("lesion.png") (.error ("cannot identify image file"))
        none none
      = .redirectIndex ("An error occurred during processing. Please try again.") :=
  c9_decode_failure_propagates (fun _ _ _ => 0) ("lesion.png")
    ("cannot identify image file") none none (by decide) (by decide)

/-- C6 (counterexample): no function of the prediction result can tell which
model source produced it — the dummy-model run and the .h5 run of the same
forward-pass output are literally the same result, so no caller-side
discriminator of placeholder mode exists, contrary to the claim. -/
theorem c6_counterexample :
    ¬ ∃ d : PredictResult → Bool,
        ∀ (src : ModelSource) (out : Option (List ℚ)) (ana : Option (GroqOut String)),
          d (predictWithSource src out ana) = decide (src = ModelSource.dummy) := by
  rintro ⟨d, hd⟩
  have h1 := hd ModelSource.dummy none none
  have h2 := hd ModelSource.h5 none none
  have heq : predictWithSource ModelSource.dummy none none
      = predictWithSource ModelSource.h5 none none := rfl
  rw [heq, h2] at h1
  simp at h1

/-- C6 (amended): the fallback to the dummy model is silent — predict_image
builds its result from the forward-pass output and the enrichment value
alone, so results are identical whichever source load_model settled on (in
particular when it fell back to the dummy model because every load failed). -/
theorem c6_amended_no_mode_flag (src1 src2 : ModelSource) (out : Option (List ℚ))
    (ana : Option (GroqOut String)) :
    load_model { h5Ok := false, savedDirExists := false, savedOk := false }
        = ModelSource.dummy ∧
    predictWithSource src1 out ana = predictWithSource src2 out ana :=
  ⟨rfl, rfl⟩

/-- The error outcomes of extractFrame carry empty mappings. -/
theorem extractFrame_error_empty (cv : CVOps) (dtype : Dtype)
    (f : List (List (List ℚ))) (he : (extractFrame cv dtype f).error ≠ none) :
    (extractFrame cv dtype f).color = none ∧
    (extractFrame cv dtype f).texture = none ∧
    (extractFrame cv dtype f).shape = none := by
  by_cases h1 : f.length = 0 ∨ (f.headD []).length = 0
  · unfold extractFrame
    rw [if_pos h1]
    exact ⟨rfl, rfl, rfl⟩
  · by_cases h2 : chanCount f = 3 ∨ chanCount f = 4
    · exfalso
      apply he
      unfold extractFrame
      rw [if_neg h1, if_pos h2]
    · unfold extractFrame
      rw [if_neg h1, if_neg h2]
      exact ⟨rfl, rfl, rfl⟩

/-- C4 (confirmed): extract_features is a total function of its input — its
blanket except handler at lines 207 to 214 means no exception ever escapes
to the caller — and every outcome carrying an error message carries empty
color, texture and shape mappings, malformed arrays (wrong dimensionality,
empty batches, unusable channel counts) included. -/
theorem c4_error_means_empty (cv : CVOps) (dtype : Dtype) (a : NpArray)
    (he : (extract_features cv dtype a).error ≠ none) :
    (extract_features cv dtype a).color = none ∧
    (extract_features cv dtype a).texture = none ∧
    (extract_features cv dtype a).shape = none := by
  rcases a with rows | rows | items
  · exact ⟨rfl, rfl, rfl⟩
  · exact extractFrame_error_empty cv dtype rows he
  · rcases items with _ | ⟨f, rest⟩
    · exact ⟨rfl, rfl, rfl⟩
    · exact extractFrame_error_empty cv dtype f he

/-- C4 witness: the theorem applied to a malformed 2-dimensional array, on
which the img.shape[2] access of line 123 raises. -/
theorem c4_witness :
    (extract_features ⟨fun _ => 0, fun _ => [], fun c => c⟩ Dtype.uint8
        (.a2 [[0]])).color = none ∧
    (extract_features ⟨fun _ => 0, fun _ => [], fun c => c⟩ Dtype.uint8
        (.a2 [[0]])).texture = none ∧
    (extract_features ⟨fun _ => 0, fun _ => [], fun c => c⟩ Dtype.uint8
        (.a2 [[0]])).shape = none :=
  c4_error_means_empty _ _ _ (by decide)

/-- C7 (confirmed): whenever cv2.findContours reports no contour in the
thresholded image — as on a uniform blank image — all five shape features
of extract_features are exactly 0 and no exception is raised (the error
field stays empty). -/
theorem c7_no_contour_zero_shape (cv : CVOps) (dtype : Dtype)
    (f : List (List (List ℚ)))
    (hh : f.length ≠ 0) (hw : (f.headD []).length ≠ 0)
    (hc : chanCount f = 3 ∨ chanCount f = 4)
    (hfind : cv.findContours (threshFrame dtype f) = []) :
    (extract_features cv dtype (.a3 f)).shape = some ⟨0, 0, 0, 0, 0⟩ ∧
    (extract_features cv dtype (.a3 f)).error = none := by
  simp only [extract_features, extractFrame]
  rw [if_neg (by push_neg; exact ⟨hh, hw⟩), if_pos hc, hfind]
  exact ⟨rfl, rfl⟩

/-- C7 witness: the theorem applied to a concrete white 1-by-1 image with a
contour finder reporting nothing. -/
theorem c7_witness :
    (extract_features ⟨fun q => q, fun _ => [], fun c => c⟩ Dtype.uint8
        (.a3 [[[255, 255, 255]]])).shape = some ⟨0, 0, 0, 0, 0⟩ ∧
    (extract_features ⟨fun q => q, fun _ => [], fun c => c⟩ Dtype.uint8
        (.a3 [[[255, 255, 255]]])).error = none :=
  c7_no_contour_zero_shape _ _ _ (by decide) (by decide) (by decide) rfl

/-- C8 (confirmed): when at least one contour is found, the three ratios of
the shape features are computed under their positivity guards: circularity
is 4 pi area over the squared perimeter exactly when the perimeter is
positive and 0 when it is 0, the aspect ratio is bounding-box width over
height exactly when the height is positive and 0 when it is 0, and solidity
is area over convex-hull area exactly when the hull area is positive and 0
when it is 0 — so no division with a zero denominator is ever taken. -/
theorem c8_guarded_ratios (cv : CVOps) (dtype : Dtype) (f : List (List (List ℚ)))
    (c0 : List (ℤ × ℤ)) (cs : List (List (ℤ × ℤ)))
    (hh : f.length ≠ 0) (hw : (f.headD []).length ≠ 0)
    (hc : chanCount f = 3 ∨ chanCount f = 4)
    (hfind : cv.findContours (threshFrame dtype f) = c0 :: cs) :
    ∃ area perimeter circ ar sol : ℚ,
      (extract_features cv dtype (.a3 f)).shape
        = some ⟨area, perimeter, circ, ar, sol⟩ ∧
      area = contourArea (maxByArea c0 cs) ∧
      perimeter = arcLength cv.sqrtQ (maxByArea c0 cs) ∧
      (0 < perimeter → circ = 4 * np_pi * area / perimeter ^ 2) ∧
      (perimeter = 0 → circ = 0) ∧
      (0 < (boundingRect (maxByArea c0 cs)).2.2.2 →
        ar = ((boundingRect (maxByArea c0 cs)).2.2.1 : ℚ)
          / ((boundingRect (maxByArea c0 cs)).2.2.2 : ℚ)) ∧
      ((boundingRect (maxByArea c0 cs)).2.2.2 = 0 → ar = 0) ∧
      (0 < contourArea (cv.convexHull (maxByArea c0 cs)) →
        sol = area / contourArea (cv.convexHull (maxByArea c0 cs))) ∧
      (contourArea (cv.convexHull (maxByArea c0 cs)) = 0 → sol = 0) := by
  have hred : (extract_features cv dtype (.a3 f)).shape
      = some (shapeFromContours cv (c0 :: cs)) := by
    simp only [extract_features, extractFrame]
    rw [if_neg (by push_neg; exact ⟨hh, hw⟩), if_pos hc, hfind]
  refine ⟨contourArea (maxByArea c0 cs), arcLength cv.sqrtQ (maxByArea c0 cs),
    (if 0 < arcLength cv.sqrtQ (maxByArea c0 cs) then
        4 * np_pi * contourArea (maxByArea c0 cs)
          / arcLength cv.sqrtQ (maxByArea c0 cs) ^ 2
      else 0),
    (if 0 < (boundingRect (maxByArea c0 cs)).2.2.2 then
        ((boundingRect (maxByArea c0 cs)).2.2.1 : ℚ)
          / ((boundingRect (maxByArea c0 cs)).2.2.2 : ℚ)
      else 0),
    (if 0 < contourArea (cv.convexHull (maxByArea c0 cs)) then
        contourArea (maxByArea c0 cs) / contourArea (cv.convexHull (maxByArea c0 cs))
      else 0),
    ?_, rfl, rfl, ?_, ?_, ?_, ?_, ?_, ?_⟩
  · rw [hred]
    rfl
  · intro h
    rw [if_pos h]
  · intro h
    rw [if_neg (by rw [h]; exact lt_irrefl 0)]
  · intro h
    rw [if_pos h]
  · intro h
    rw [if_neg (by rw [h]; exact lt_irrefl 0)]
  · intro h
    rw [if_pos h]
  · intro h
    rw [if_neg (by rw [h]; exact lt_irrefl 0)]

/-- C8 witness: the theorem applied to a concrete image whose contour finder
reports the unit square. -/
theorem c8_witness :
    ∃ area perimeter circ ar sol : ℚ,
      (extract_features ⟨fun q => q, fun _ => [[(0, 0), (1, 0), (1, 1), (0, 1)]],
          fun c => c⟩ Dtype.uint8 (.a3 [[[255, 255, 255]]])).shape
        = some ⟨area, perimeter, circ, ar, sol⟩ ∧
      area = contourArea (maxByArea [(0, 0), (1, 0), (1, 1), (0, 1)] []) ∧
      perimeter = arcLength (CVOps.mk (fun q => q)
          (fun _ => [[(0, 0), (1, 0), (1, 1), (0, 1)]]) (fun c => c)).sqrtQ
          (maxByArea [(0, 0), (1, 0), (1, 1), (0, 1)] []) ∧
      (0 < perimeter → circ = 4 * np_pi * area / perimeter ^ 2) ∧
      (perimeter = 0 → circ = 0) ∧
      (0 < (boundingRect (maxByArea [(0, 0), (1, 0), (1, 1), (0, 1)] [])).2.2.2 →
        ar = ((boundingRect (maxByArea [(0, 0), (1, 0), (1, 1), (0, 1)] [])).2.2.1 : ℚ)
          / ((boundingRect (maxByArea [(0, 0), (1, 0), (1, 1), (0, 1)] [])).2.2.2 : ℚ)) ∧
      ((boundingRect (maxByArea [(0, 0), (1, 0), (1, 1), (0, 1)] [])).2.2.2 = 0 → ar = 0) ∧
      (0 < contourArea ((CVOps.mk (fun q => q)
            (fun _ => [[(0, 0), (1, 0), (1, 1), (0, 1)]]) (fun c => c)).convexHull
            (maxByArea [(0, 0), (1, 0), (1, 1), (0, 1)] [])) →
        sol = area / contourArea ((CVOps.mk (fun q => q)
            (fun _ => [[(0, 0), (1, 0), (1, 1), (0, 1)]]) (fun c => c)).convexHull
            (maxByArea [(0, 0), (1, 0), (1, 1), (0, 1)] []))) ∧
      (contourArea ((CVOps.mk (fun q => q)
            (fun _ => [[(0, 0), (1, 0), (1, 1), (0, 1)]]) (fun c => c)).convexHull
            (maxByArea [(0, 0), (1, 0), (1, 1), (0, 1)] [])) = 0 → sol = 0) :=
  c8_guarded_ratios _ _ _ [(0, 0), (1, 0), (1, 1), (0, 1)] []
    (by decide) (by decide) (by decide) rfl

/-- C3 (amended theorem): the contrast extract_features reports is np.std of
the grayscale samples — the standard-deviation half of the claim — while
the energy is the sum of the squares of the grayscale samples reduced
modulo 256 (gray ** 2 squares uint8 samples elementwise, wrapping) divided
by the pixel count, not the plain sum of squares the claim states. -/
theorem c3_texture_amended (cv : CVOps) (dtype : Dtype) (f : List (List (List ℚ)))
    (hh : f.length ≠ 0) (hw : (f.headD []).length ≠ 0)
    (hc : chanCount f = 3 ∨ chanCount f = 4) :
    (extract_features cv dtype (.a3 f)).texture
      = some ⟨npStd cv.sqrtQ ((grayFrame dtype f).flatten.map (fun v => (v : ℚ))),
          ((((grayFrame dtype f).flatten.map (fun v => v * v % 256)).sum : ℕ) : ℚ)
            / (((grayFrame dtype f).length
                * ((grayFrame dtype f).headD []).length : ℕ) : ℚ)⟩ := by
  simp only [extract_features, extractFrame]
  rw [if_neg (by push_neg; exact ⟨hh, hw⟩), if_pos hc]
  rfl

/-- C3 witness: the theorem applied to a concrete 1-by-1 uint8 image. -/
theorem c3_witness :
    (extract_features ⟨fun _ => 0, fun _ => [], fun c => c⟩ Dtype.uint8
        (.a3 [[[7, 7, 7]]])).texture
      = some ⟨npStd (CVOps.mk (fun _ => 0) (fun _ => []) (fun c => c)).sqrtQ
            ((grayFrame Dtype.uint8 [[[7, 7, 7]]]).flatten.map (fun v => (v : ℚ))),
          ((((grayFrame Dtype.uint8 [[[7, 7, 7]]]).flatten.map
              (fun v => v * v % 256)).sum : ℕ) : ℚ)
            / (((grayFrame Dtype.uint8 [[[7, 7, 7]]]).length
                * ((grayFrame Dtype.uint8 [[[7, 7, 7]]]).headD []).length : ℕ) : ℚ)⟩ :=
  c3_texture_amended ⟨fun _ => 0, fun _ => [], fun c => c⟩ Dtype.uint8 [[[7, 7, 7]]]
    (by decide) (by decide) (by decide)

/-- C3 (counterexample): on the 1-by-1 white uint8 image the grayscale
sample is 255, so the energy the claim states — sum of squared intensities
over the pixel count — is 65025, but gray ** 2 wraps 255 * 255 to 1 in
uint8 arithmetic and extract_features reports energy 1. -/
theorem c3_counterexample :
    (extract_features ⟨fun _ => 0, fun _ => [], fun c => c⟩ Dtype.uint8
        (.a3 [[[255, 255, 255]]])).texture = some ⟨0, 1⟩ ∧
    specTextureEnergy (grayFrame Dtype.uint8 [[[255, 255, 255]]]) = 65025 ∧
    (65025 : ℚ) ≠ 1 := by
  refine ⟨by decide, by decide, by decide⟩

/-- C5 (amended theorem): for a 200 reply whose content fails to parse,
get_groq_analysis parses the substring between the first opening and the
last closing brace when such a substring exists — a parse failure there
produces the error marker — but when no brace-delimited substring exists it
returns None, not an error marker; a non-200 status, a transport exception
and a body-extraction failure each produce an error marker, and the
function never raises (it is total). -/
theorem c5_parse_fallback (α : Type) (loads : List Char → Option α)
    (cs : List Char) (hparse : loads cs = none) :
    ((0 ≤ pyFind cs (Char.ofNat 123) ∧
        pyFind cs (Char.ofNat 123) < pyRFind cs (Char.ofNat 125) + 1) →
      get_groq_analysis loads true (.resp 200 (.ok cs))
        = (match loads ((cs.drop (pyFind cs (Char.ofNat 123)).toNat).take
              (pyRFind cs (Char.ofNat 125) + 1 - pyFind cs (Char.ofNat 123)).toNat) with
           | some a => GroqOut.ana a
           | none => GroqOut.err ("Failed to parse JSON from Groq response"))) ∧
    (¬(0 ≤ pyFind cs (Char.ofNat 123) ∧
        pyFind cs (Char.ofNat 123) < pyRFind cs (Char.ofNat 125) + 1) →
      get_groq_analysis loads true (.resp 200 (.ok cs)) = GroqOut.nil) ∧
    (∀ st : ℕ, st ≠ 200 → ∀ content,
      get_groq_analysis loads true (.resp st content)
        = GroqOut.err ("API request failed with status code " ++ toString st)) ∧
    (∀ m, get_groq_analysis loads true (.exn m) = GroqOut.err m) ∧
    (∀ m, get_groq_analysis loads true (.resp 200 (.error m)) = GroqOut.err m) := by
  refine ⟨?_, ?_, ?_, ?_, ?_⟩
  · intro h
    simp only [get_groq_analysis, Bool.not_true, Bool.false_eq_true, if_false,
      if_pos rfl, hparse, if_true]
    rw [if_pos h]
  · intro h
    simp only [get_groq_analysis, Bool.not_true, Bool.false_eq_true, if_false,
      if_pos rfl, hparse, if_true]
    rw [if_neg h]
  · intro st hst content
    simp only [get_groq_analysis, Bool.not_true, Bool.false_eq_true, if_false]
    rw [if_neg hst]
  · intro m
    rfl
  · intro m
    rfl

/-- C5 witness: the theorem applied to a concrete unparseable 200 reply. -/
theorem c5_witness :
    ((0 ≤ pyFind ("a\x7bb\x7dc".toList) (Char.ofNat 123) ∧
        pyFind ("a\x7bb\x7dc".toList) (Char.ofNat 123)
          < pyRFind ("a\x7bb\x7dc".toList) (Char.ofNat 125) + 1) →
      get_groq_analysis (fun _ => (none : Option Unit)) true
          (.resp 200 (.ok ("a\x7bb\x7dc".toList)))
        = (match (fun _ => (none : Option Unit))
              ((("a\x7bb\x7dc".toList).drop (pyFind ("a\x7bb\x7dc".toList) (Char.ofNat 123)).toNat).take
                (pyRFind ("a\x7bb\x7dc".toList) (Char.ofNat 125) + 1
                  - pyFind ("a\x7bb\x7dc".toList) (Char.ofNat 123)).toNat) with
           | some a => GroqOut.ana a
           | none => GroqOut.err ("Failed to parse JSON from Groq response"))) ∧
    (¬(0 ≤ pyFind ("a\x7bb\x7dc".toList) (Char.ofNat 123) ∧
        pyFind ("a\x7bb\x7dc".toList) (Char.ofNat 123)
          < pyRFind ("a\x7bb\x7dc".toList) (Char.ofNat 125) + 1) →
      get_groq_analysis (fun _ => (none : Option Unit)) true
          (.resp 200 (.ok ("a\x7bb\x7dc".toList))) = GroqOut.nil) ∧
    (∀ st : ℕ, st ≠ 200 → ∀ content,
      get_groq_analysis (fun _ => (none : Option Unit)) true (.resp st content)
        = GroqOut.err ("API request failed with status code " ++ toString st)) ∧
    (∀ m, get_groq_analysis (fun _ => (none : Option Unit)) true (.exn m)
        = GroqOut.err m) ∧
    (∀ m, get_groq_analysis (fun _ => (none : Option Unit)) true
        (.resp 200 (.error m)) = GroqOut.err m) :=
  c5_parse_fallback Unit (fun _ => none) ("a\x7bb\x7dc".toList) rfl

/-- C5 (counterexample): a 200 reply whose content has no brace-delimited
substring makes both parse attempts fail, yet get_groq_analysis returns
None — the absent-enrichment marker — and not an error marker, contrary to
the claim. -/
theorem c5_counterexample :
    get_groq_analysis (fun _ => (none : Option Unit)) true
        (.resp 200 (.ok ("no json here".toList))) = GroqOut.nil ∧
    (∀ m : String, (GroqOut.nil : GroqOut Unit) ≠ GroqOut.err m) := by
  refine ⟨rfl, ?_⟩
  intro m h
  exact GroqOut.noConfusion h

end SkinApp
